import Mathlib

/-
Verification development for the entity-matching core of a company
resolution pipeline (src/entity_matching.py).  The Python source is
shallowly embedded: DataFrame rows become structures of strings, the
rapidfuzz similarity function is an explicit parameter, the OpenAI oracle
is a function from candidates to outcomes, file/database side effects are
explicit outputs and state, and Python exceptions become explicit outcome
constructors.
-/

namespace Firmable

/-- Model of the decoded JSON values relevant to the oracle verdict fields
(the values that can sit under a key of the parsed response object).
Numbers are modelled as integers; the claims never depend on fractional
values. -/
inductive PyVal where
  | null
  | pybool (b : Bool)
  | pyint (n : Int)
  | pystr (s : String)
deriving DecidableEq

/-- Python truthiness of an optional decoded value, as used by
bool(decision.get("is_match")): a missing key gives None which is falsy;
False, 0 and the empty string are falsy; everything else is truthy. -/
def pyTruthy : Option PyVal → Bool
  | Option.none => false
  | some PyVal.null => false
  | some (PyVal.pybool b) => b
  | some (PyVal.pyint n) => n != 0
  | some (PyVal.pystr s) => s != ""

/-- Python str() of a decoded value, as used by
str(decision.get("confidence", "")). -/
def pyStr : PyVal → String
  | PyVal.null => "None"
  | PyVal.pybool true => "True"
  | PyVal.pybool false => "False"
  | PyVal.pyint n => toString n
  | PyVal.pystr s => s

/-- Model of Python str.lower() as applied to the confidence string:
lowercases each character exactly as String.toLower does, but is defined by
structural recursion over the character list so that concrete instances
reduce inside proofs. -/
def pyLower (s : String) : String :=
  String.mk (s.data.map Char.toLower)

/-- Model of Python str.strip() with no argument: removes leading and
trailing whitespace, defined by structural recursion over the character
list so that concrete instances reduce inside proofs (String.trim computes
the same characters through byte positions). -/
def pyStrip (s : String) : String :=
  String.mk (((s.data.dropWhile Char.isWhitespace).reverse.dropWhile Char.isWhitespace).reverse)

/-- Result of running json.loads on the oracle response body and, when it
parses, of treating it as a dict: parseError models a JSON parse failure
(exception), nonObject models valid JSON that is not an object (so that
decision.get raises), objVal carries the key/value pairs of the object. -/
inductive LoadResult where
  | parseError
  | nonObject
  | objVal (kvs : List (String × PyVal))
deriving DecidableEq

/-- Outcome of one oracle call for one candidate: callError models an
exception raised by the chat-completion call itself (before anything is
logged); reply carries the returned content string (which the code logs)
together with the result of parsing it. -/
inductive OracleOutcome where
  | callError
  | reply (content : String) (loaded : LoadResult)
deriving DecidableEq

/-- One row of the sampled ABR staging table (columns selected by
fetch_staging_data, with missing values already normalised to empty
strings by fillna). -/
structure AbrRow where
  abn : String
  entity_name_norm : String
  entity_name_raw : String
  entity_type : String
  entity_status : String
  address_full : String
  suburb : String
  postcode : String
  state : String
  start_date_raw : String
deriving DecidableEq

/-- One row of the sampled Common Crawl staging table (columns selected by
fetch_staging_data, with missing values already normalised to empty
strings by fillna). -/
structure CcRow where
  commoncrawl_id : Nat
  crawl_id : String
  url : String
  domain : String
  tld : String
  html_title : String
  company_name_raw : String
  company_name_norm : String
  industry : String
  fetched_at : String
deriving DecidableEq

/-- A match candidate dict as built by fuzzy_match_entities:
keys cc, abr, score, method. -/
structure Candidate where
  cc : CcRow
  abr : AbrRow
  score : Int
  method : String
deriving DecidableEq

/-- A Python datetime.date value. -/
structure PyDate where
  year : Nat
  month : Nat
  day : Nat
deriving DecidableEq

/-- Gregorian leap-year rule used by Python datetime. -/
def isLeap (y : Nat) : Bool :=
  y % 4 = 0 && (y % 100 != 0 || y % 400 = 0)

/-- Days in a month, as validated by the Python datetime constructor. -/
def daysInMonth (y m : Nat) : Nat :=
  if m = 2 then (if isLeap y then 29 else 28)
  else if m = 4 ∨ m = 6 ∨ m = 9 ∨ m = 11 then 30
  else 31

/-- Validity of a (year, month, day) triple for the Python datetime
constructor (MINYEAR = 1, MAXYEAR = 9999). -/
def validDate (y m d : Nat) : Bool :=
  1 ≤ y && y ≤ 9999 && 1 ≤ m && m ≤ 12 && 1 ≤ d && d ≤ daysInMonth y m

/-- Numeric value of a list of decimal digit characters. -/
def digitsVal (cs : List Char) : Nat :=
  cs.foldl (fun a c => 10 * a + (c.toNat - 48)) 0

/-- Model of datetime.strptime(s, "%Y%m%d").date() wrapped in try/except:
CPython compiles the format to the regex (%Y four digits)(%m)(%d) and then
requires the whole string to be consumed and the resulting triple to be a
valid date; on an eight-character string this succeeds exactly when the
string is four digits of year, two of month and two of day forming a valid
date.  Failure (no regex match, unconverted trailing data, or an invalid
date) is the none case. -/
def strptime_Ymd (s : String) : Option PyDate :=
  match s.toList with
  | [y1, y2, y3, y4, m1, m2, d1, d2] =>
    if y1.isDigit && y2.isDigit && y3.isDigit && y4.isDigit
        && m1.isDigit && m2.isDigit && d1.isDigit && d2.isDigit then
      let y := digitsVal [y1, y2, y3, y4]
      let m := digitsVal [m1, m2]
      let d := digitsVal [d1, d2]
      if validDate y m d then some ⟨y, m, d⟩ else none
    else none
  | _ => none

/-- Model of datetime.strptime(s, "%Y-%m-%d").date() wrapped in try/except,
restricted to ten-character inputs (the only way parse_date_safe calls it).
To consume all ten characters the regex must take four year digits, a dash,
a two-character month, a dash and a two-character day; the day pattern in
CPython also admits a space followed by a nonzero digit.  The month and the
day value ranges enforced by the regex alternations are subsumed by the
datetime validity check. -/
def strptime_Y_m_d (s : String) : Option PyDate :=
  match s.toList with
  | [y1, y2, y3, y4, h1, m1, m2, h2, d1, d2] =>
    if y1.isDigit && y2.isDigit && y3.isDigit && y4.isDigit
        && h1 == '-' && m1.isDigit && m2.isDigit && h2 == '-'
        && ((d1.isDigit && d2.isDigit) || (d1 == ' ' && d2.isDigit && d2 != '0')) then
      let y := digitsVal [y1, y2, y3, y4]
      let m := digitsVal [m1, m2]
      let d := if d1 == ' ' then digitsVal [d2] else digitsVal [d1, d2]
      if validDate y m d then some ⟨y, m, d⟩ else none
    else none
  | _ => none

/-- Embedding of parse_date_safe.  The argument is already a string, so the
str(date_str) conversion is the identity; the try/except around strptime is
absorbed into the none results of the strptime models; the falsy check on
the argument is the empty-string test. -/
def parse_date_safe (date_str : String) : Option PyDate :=
  if date_str = "" then none
  else
    if date_str.length = 8 ∧ date_str.data.all Char.isDigit = true then
      strptime_Ymd date_str
    else if date_str.length = 10 ∧ date_str.data.contains '-' = true then
      strptime_Y_m_d date_str
    else none

/-- Embedding of the inner loop of fuzzy_match_entities over ABR rows for
one Common Crawl name: the running best score starts at -1 and the best row
at None; rows whose stripped normalised name is empty are skipped; a row is
retained only when its score strictly exceeds the running best.  The
similarity function sim models fuzz.token_sort_ratio applied to the already
stripped names. -/
def bestAbrAux (sim : String → String → Nat) (cc_name : String) :
    Int → Option AbrRow → List AbrRow → Int × Option AbrRow
  | best_score, best_row, [] => (best_score, best_row)
  | best_score, best_row, abr_row :: rest =>
    let abr_name := pyStrip abr_row.entity_name_norm
    if abr_name = "" then
      bestAbrAux sim cc_name best_score best_row rest
    else if best_score < ((sim cc_name abr_name : Nat) : Int) then
      bestAbrAux sim cc_name ((sim cc_name abr_name : Nat) : Int) (some abr_row) rest
    else
      bestAbrAux sim cc_name best_score best_row rest

/-- Embedding of the outer loop of fuzzy_match_entities over Common Crawl
rows, producing (high_conf_matches, ambiguous_matches, unmatched_cc) in
iteration order.  A row with an empty stripped name goes straight to
unmatched; otherwise the best ABR row is computed and, when one exists, the
pair is appended to ambiguous_matches with method fuzzy_name_ambiguous. -/
def fuzzyLoop (sim : String → String → Nat) (abrRows : List AbrRow) :
    List CcRow → List Candidate × List Candidate × List CcRow
  | [] => ([], [], [])
  | cc_row :: rest =>
    let r := fuzzyLoop sim abrRows rest
    let cc_name := pyStrip cc_row.company_name_norm
    if cc_name = "" then (r.1, r.2.1, cc_row :: r.2.2)
    else
      match bestAbrAux sim cc_name (-1) none abrRows with
      | (best_score, some best_abr_row) =>
        (r.1, ⟨cc_row, best_abr_row, best_score, "fuzzy_name_ambiguous"⟩ :: r.2.1, r.2.2)
      | (_, none) => (r.1, r.2.1, cc_row :: r.2.2)

/-- Embedding of fuzzy_match_entities.  The threshold parameters are kept
because the source declares them, and they are unused because the source
body never reads them; when either input table is empty all three buckets
are returned empty. -/
def fuzzy_match_entities (sim : String → String → Nat) (abrRows : List AbrRow)
    (ccRows : List CcRow) (high_threshold : Int) (low_threshold : Int) :
    List Candidate × List Candidate × List CcRow :=
  if abrRows = [] ∨ ccRows = [] then ([], [], [])
  else fuzzyLoop sim abrRows ccRows

/-- The module constant LLM_MAX_REVIEWS. -/
def LLM_MAX_REVIEWS : Nat := 10

/-- Embedding of build_llm_prompt: the f-string template of the source with
the same interpolated fields, followed by the final strip(). -/
def build_llm_prompt (amb : Candidate) : String :=
  let cc := amb.cc
  let abr := amb.abr
  let cc_name := if cc.company_name_norm = "" then cc.company_name_raw else cc.company_name_norm
  pyStrip (String.intercalate "\n"
    [ "You are matching Australian companies between a website (Common Crawl) and an ABR record."
    , ""
    , "Common Crawl company:"
    , "- Normalised name: " ++ cc_name
    , "- URL: " ++ cc.url
    , "- Domain: " ++ cc.domain
    , ""
    , "ABR candidate:"
    , "- ABN: " ++ abr.abn
    , "- Entity name (normalised): " ++ abr.entity_name_norm
    , "- Entity name (raw): " ++ abr.entity_name_raw
    , "- Entity type: " ++ abr.entity_type
    , "- Status: " ++ abr.entity_status
    , "- Address: " ++ abr.address_full ++ ", " ++ abr.suburb ++ ", " ++ abr.state ++ " " ++ abr.postcode
    , ""
    , "Question:"
    , "Are these records referring to the same underlying company?"
    , ""
    , "Respond **only** with a JSON object with the following shape:"
    , "\x7b"
    , "  \"is_match\": true or false,"
    , "  \"confidence\": \"low\" | \"medium\" | \"high\","
    , "  \"reason\": \"short explanation here\""
    , "\x7d"
    ])

/-- The re-tagged copy of an accepted match: dict(amb) with the method key
set to llm_disambiguation. -/
def retag (m : Candidate) : Candidate :=
  { m with method := "llm_disambiguation" }

/-- The per-item acceptance decision of the loop body of
llm_review_ambiguous: a call error or an unparseable / non-object body ends
in the except branch and accepts nothing; otherwise is_match is the
truthiness of decision.get("is_match"), confidence is the lowercased str of
decision.get("confidence", ""), and the pair is accepted when is_match
holds and confidence is high or medium. -/
def accepts : OracleOutcome → Bool
  | OracleOutcome.callError => false
  | OracleOutcome.reply _ LoadResult.parseError => false
  | OracleOutcome.reply _ LoadResult.nonObject => false
  | OracleOutcome.reply _ (LoadResult.objVal kvs) =>
    let is_match := pyTruthy (kvs.lookup "is_match")
    let confidence := pyLower (pyStr ((kvs.lookup "confidence").getD (PyVal.pystr "")))
    is_match && (confidence == "high" || confidence == "medium")

/-- Embedding of the for-loop of llm_review_ambiguous over to_review, in
iteration order.  Returns (llm_approved, audit-log entries, items for which
an oracle call was attempted).  A successful call appends the prompt and
the raw content to the log before any parsing, so parse failures are still
logged; a call error logs nothing; in either failure case the item is
simply not approved and the loop moves on. -/
def reviewLoop (oracle : Candidate → OracleOutcome) :
    List Candidate → List Candidate × List (String × String) × List Candidate
  | [] => ([], [], [])
  | amb :: rest =>
    let r := reviewLoop oracle rest
    match oracle amb with
    | OracleOutcome.callError => (r.1, r.2.1, amb :: r.2.2)
    | OracleOutcome.reply content loaded =>
      ((if accepts (OracleOutcome.reply content loaded) then retag amb :: r.1 else r.1),
       (build_llm_prompt amb, content) :: r.2.1,
       amb :: r.2.2)

/-- The observable result of llm_review_ambiguous: the returned pair plus
the two external effects, namely the audit-log lines appended to
data/llm_match_logs.jsonl (prompt and response of each logged interaction)
and the list of candidates for which an oracle call was attempted. -/
structure ReviewResult where
  approved : List Candidate
  still_ambiguous : List Candidate
  log : List (String × String)
  sent : List Candidate
deriving DecidableEq

/-- Embedding of llm_review_ambiguous.  openai_client models the module
global set at import (none when client construction failed), api_key models
os.getenv("OPENAI_API_KEY").  An empty input returns two empty lists; an
unavailable client returns the whole input as still ambiguous without any
call or log write; otherwise the first max_to_review items are reviewed and
still_ambiguous is recomputed from to_review by structural membership in
llm_approved, exactly as the source list comprehension does. -/
def llm_review_ambiguous (openai_client : Option Unit) (api_key : Option String)
    (oracle : Candidate → OracleOutcome)
    (ambiguous_matches : List Candidate) (max_to_review : Nat) : ReviewResult :=
  if ambiguous_matches = [] then ⟨[], [], [], []⟩
  else if openai_client = none ∨ api_key = none then ⟨[], ambiguous_matches, [], []⟩
  else
    let to_review := ambiguous_matches.take max_to_review
    let remaining := ambiguous_matches.drop max_to_review
    let res := reviewLoop oracle to_review
    let llm_approved := res.1
    let still_ambiguous :=
      to_review.filter (fun m => decide (¬ m ∈ llm_approved)) ++ remaining
    ⟨llm_approved, still_ambiguous, res.2.1, res.2.2⟩

/-- One row of company_unified as inserted by write_matches_to_db (the
serial company_id is the position in the insertion order, starting from 1
after TRUNCATE ... RESTART IDENTITY, and is kept implicit here). -/
structure UnifiedRow where
  abn : String
  unified_name : String
  unified_name_norm : String
  website_domain : String
  website_url_sample : String
  industry : String
  entity_type : String
  entity_status : String
  address_full : String
  suburb : String
  postcode : String
  state : String
  start_date : Option PyDate
  match_confidence : Int
  match_method : String
deriving DecidableEq

/-- One row of company_source_link. -/
structure LinkRow where
  company_id : Nat
  source_system : String
  source_key : String
deriving DecidableEq

/-- The unified-output state of the relational store: the two tables
touched by write_matches_to_db. -/
structure Db where
  company_unified : List UnifiedRow
  company_source_link : List LinkRow
deriving DecidableEq

/-- The unified_record dict built for one match, mirroring the field
assignments of the source (float(score) is kept as the integer score of
this embedding). -/
def unifiedOf (m : Candidate) : UnifiedRow :=
  { abn := m.abr.abn
  , unified_name := if m.abr.entity_name_raw = "" then m.abr.entity_name_norm else m.abr.entity_name_raw
  , unified_name_norm := m.abr.entity_name_norm
  , website_domain := m.cc.domain
  , website_url_sample := m.cc.url
  , industry := m.cc.industry
  , entity_type := m.abr.entity_type
  , entity_status := m.abr.entity_status
  , address_full := m.abr.address_full
  , suburb := m.abr.suburb
  , postcode := m.abr.postcode
  , state := m.abr.state
  , start_date := parse_date_safe m.abr.start_date_raw
  , match_confidence := m.score
  , match_method := m.method }

/-- The two source-link rows inserted per match, with the returned serial
company_id threaded through in insertion order. -/
def linkRows : Nat → List Candidate → List LinkRow
  | _, [] => []
  | company_id, m :: rest =>
    ⟨company_id, "ABR", m.abr.abn⟩
      :: ⟨company_id, "COMMONCRAWL", toString m.cc.commoncrawl_id⟩
      :: linkRows (company_id + 1) rest

/-- Embedding of write_matches_to_db on the successful path: an empty match
list returns immediately without touching the store; otherwise the two
tables are truncated and repopulated from the matches inside one committed
transaction.  The rollback-and-reraise path changes nothing and is not
modelled as a separate outcome. -/
def write_matches_to_db (match_list : List Candidate) (db : Db) : Db :=
  if match_list = [] then db
  else
    { company_unified := match_list.map unifiedOf
    , company_source_link := linkRows 1 match_list }

/-- A concrete Common Crawl row used by witnesses and counterexamples. -/
def ccSample : CcRow :=
  { commoncrawl_id := 20
  , crawl_id := "CC-MAIN-2024"
  , url := "https://acme.example.au"
  , domain := "acme.example.au"
  , tld := "au"
  , html_title := "Acme"
  , company_name_raw := "Acme Pty Ltd"
  , company_name_norm := "acme pty ltd"
  , industry := "retail"
  , fetched_at := "2024-01-01" }

/-- A concrete ABR row used by witnesses and counterexamples. -/
def abrSample : AbrRow :=
  { abn := "12345678901"
  , entity_name_norm := "acme pty ltd"
  , entity_name_raw := "ACME PTY LTD"
  , entity_type := "PRV"
  , entity_status := "ACT"
  , address_full := "1 Main St"
  , suburb := "Sydney"
  , postcode := "2000"
  , state := "NSW"
  , start_date_raw := "20200101" }

/-- A second ABR row, distinct from abrSample, for tie-break scenarios. -/
def abrSampleB : AbrRow :=
  { abrSample with
      abn := "98765432109"
    , entity_name_norm := "acme proprietary"
    , entity_name_raw := "ACME PROPRIETARY" }

/-- An ABR row whose normalised name strips to empty. -/
def abrNoName : AbrRow :=
  { abrSample with entity_name_norm := "  ", entity_name_raw := "" }

/-- A Common Crawl row whose normalised name is empty. -/
def ccNoName : CcRow :=
  { ccSample with company_name_norm := "" }

/-- A concrete ambiguous candidate as fuzzy_match_entities would emit. -/
def cand1 : Candidate :=
  { cc := ccSample, abr := abrSample, score := 95, method := "fuzzy_name_ambiguous" }

/-- An oracle that answers every item with a well-shaped accepting verdict. -/
def oracleYesHigh : Candidate → OracleOutcome :=
  fun _ => OracleOutcome.reply
    "\x7b\"is_match\": true, \"confidence\": \"high\", \"reason\": \"same entity\"\x7d"
    (LoadResult.objVal
      [ ("is_match", PyVal.pybool true)
      , ("confidence", PyVal.pystr "high")
      , ("reason", PyVal.pystr "same entity") ])

/-- An oracle that answers every item with a well-shaped low-confidence
positive verdict. -/
def oracleYesLow : Candidate → OracleOutcome :=
  fun _ => OracleOutcome.reply
    "\x7b\"is_match\": true, \"confidence\": \"low\", \"reason\": \"weak signal\"\x7d"
    (LoadResult.objVal
      [ ("is_match", PyVal.pybool true)
      , ("confidence", PyVal.pystr "low")
      , ("reason", PyVal.pystr "weak signal") ])

/-- An oracle whose response is valid JSON but violates the documented
verdict shape on every field: is_match is the number 1 rather than a
boolean, confidence is the unknown literal HIGH rather than one of the
lowercase literals, and the reason field is absent. -/
def oracleNonconforming : Candidate → OracleOutcome :=
  fun _ => OracleOutcome.reply
    "\x7b\"is_match\": 1, \"confidence\": \"HIGH\"\x7d"
    (LoadResult.objVal
      [ ("is_match", PyVal.pyint 1)
      , ("confidence", PyVal.pystr "HIGH") ])

/-- A store state already holding one unified row and its two links. -/
def dbDirty : Db :=
  { company_unified := [unifiedOf cand1]
  , company_source_link := linkRows 1 [cand1] }

/-- The empty store state. -/
def dbEmpty : Db :=
  { company_unified := [], company_source_link := [] }

/-- The approved list produced by the review loop is the in-order filter of
the reviewed items by the per-item acceptance decision, each re-tagged. -/
theorem reviewLoop_approved (oracle : Candidate → OracleOutcome) :
    ∀ l : List Candidate,
      (reviewLoop oracle l).1 = (l.filter fun m => accepts (oracle m)).map retag := by
  intro l
  induction l with
  | nil => rfl
  | cons m rest ih =>
    cases horacle : oracle m with
    | callError =>
      simp [reviewLoop, horacle, List.filter_cons, accepts, ih]
    | reply content loaded =>
      by_cases hacc : accepts (OracleOutcome.reply content loaded)
      · simp [reviewLoop, horacle, List.filter_cons, hacc, ih]
      · simp [reviewLoop, horacle, List.filter_cons, hacc, ih]

/-- The review loop attempts one oracle call per reviewed item, in order,
whatever the outcomes are. -/
theorem reviewLoop_sent (oracle : Candidate → OracleOutcome) :
    ∀ l : List Candidate, (reviewLoop oracle l).2.2 = l := by
  intro l
  induction l with
  | nil => rfl
  | cons m rest ih =>
    cases horacle : oracle m with
    | callError => simp [reviewLoop, horacle, ih]
    | reply content loaded => simp [reviewLoop, horacle, ih]

/-- With an available client, the approved output of llm_review_ambiguous
is the in-order filter of the first max_to_review items by the per-item
acceptance decision, re-tagged. -/
theorem llm_review_approved_eq (u : Unit) (key : String)
    (oracle : Candidate → OracleOutcome) (ambs : List Candidate) (K : Nat) :
    (llm_review_ambiguous (some u) (some key) oracle ambs K).approved
      = ((ambs.take K).filter fun m => accepts (oracle m)).map retag := by
  by_cases h : ambs = []
  · subst h; simp [llm_review_ambiguous]
  · simp [llm_review_ambiguous, h, reviewLoop_approved]

/-- With an available client, exactly the first max_to_review items are
sent to the oracle. -/
theorem llm_review_sent_eq (u : Unit) (key : String)
    (oracle : Candidate → OracleOutcome) (ambs : List Candidate) (K : Nat) :
    (llm_review_ambiguous (some u) (some key) oracle ambs K).sent = ambs.take K := by
  by_cases h : ambs = []
  · subst h; simp [llm_review_ambiguous]
  · simp [llm_review_ambiguous, h, reviewLoop_sent]

/-- With an available client and a non-empty input, the still-ambiguous
output is the reviewed slice filtered by structural non-membership in the
approved list, followed by the untouched remainder. -/
theorem llm_review_still_eq (u : Unit) (key : String)
    (oracle : Candidate → OracleOutcome) (ambs : List Candidate) (K : Nat)
    (h : ambs ≠ []) :
    (llm_review_ambiguous (some u) (some key) oracle ambs K).still_ambiguous
      = (ambs.take K).filter
          (fun m => decide (¬ m ∈ (reviewLoop oracle (ambs.take K)).1))
        ++ ambs.drop K := by
  simp [llm_review_ambiguous, h]

/-- The per-item acceptance decision for a parsed object with an explicit
boolean is_match field and an explicit string confidence field. -/
theorem accepts_verdict (content : String) (kvs : List (String × PyVal))
    (b : Bool) (c : String)
    (him : kvs.lookup "is_match" = some (PyVal.pybool b))
    (hconf : kvs.lookup "confidence" = some (PyVal.pystr c)) :
    accepts (OracleOutcome.reply content (LoadResult.objVal kvs))
      = (b && (pyLower c == "high" || pyLower c == "medium")) := by
  simp [accepts, him, hconf, pyTruthy, pyStr]

/-- Claim C5: when the oracle client is unavailable, either because client
construction failed (openai_client is None) or because the API key
environment variable is unset, llm_review_ambiguous returns an empty
accepted list and the whole input as still ambiguous, attempts no oracle
call and appends nothing to the audit log. -/
theorem llm_unavailable_short_circuit (client : Option Unit) (key : Option String)
    (oracle : Candidate → OracleOutcome) (ambs : List Candidate) (K : Nat) :
    llm_review_ambiguous none key oracle ambs K = ⟨[], ambs, [], []⟩
      ∧ llm_review_ambiguous client none oracle ambs K = ⟨[], ambs, [], []⟩ := by
  constructor <;>
    · by_cases h : ambs = []
      · subst h; rfl
      · simp [llm_review_ambiguous, h]

/-- Claim C6: with an available client, exactly the first max_to_review
items of the input, hence min(n, K) of them, are sent to the oracle, and
the still-ambiguous output ends with the deferred remainder unchanged,
whatever the oracle outcomes are. -/
theorem llm_review_cap_respected (u : Unit) (key : String)
    (oracle : Candidate → OracleOutcome) (ambs : List Candidate) (K : Nat) :
    (llm_review_ambiguous (some u) (some key) oracle ambs K).sent = ambs.take K
      ∧ (llm_review_ambiguous (some u) (some key) oracle ambs K).sent.length
          = min ambs.length K
      ∧ ∃ rejected, (llm_review_ambiguous (some u) (some key) oracle ambs K).still_ambiguous
          = rejected ++ ambs.drop K := by
  refine ⟨llm_review_sent_eq u key oracle ambs K, ?_, ?_⟩
  · rw [llm_review_sent_eq u key oracle ambs K, List.length_take, Nat.min_comm]
  · by_cases h : ambs = []
    · subst h
      exact ⟨[], by simp [llm_review_ambiguous]⟩
    · exact ⟨_, llm_review_still_eq u key oracle ambs K h⟩

/-- Claim C4, amended: only an oracle call error, a JSON parse failure or a
non-object JSON body are per-item failures; any of them leaves the item
unaccepted while the loop still processes every one of the first
max_to_review items and accepts each of the others purely by its own
outcome. -/
theorem llm_per_item_failure_isolated (u : Unit) (key : String)
    (oracle : Candidate → OracleOutcome) (ambs : List Candidate) (K : Nat)
    (content : String) :
    (llm_review_ambiguous (some u) (some key) oracle ambs K).approved
        = ((ambs.take K).filter fun m => accepts (oracle m)).map retag
      ∧ (llm_review_ambiguous (some u) (some key) oracle ambs K).sent = ambs.take K
      ∧ accepts OracleOutcome.callError = false
      ∧ accepts (OracleOutcome.reply content LoadResult.parseError) = false
      ∧ accepts (OracleOutcome.reply content LoadResult.nonObject) = false :=
  ⟨llm_review_approved_eq u key oracle ambs K,
   llm_review_sent_eq u key oracle ambs K, rfl, rfl, rfl⟩

/-- Claim C4, counterexample: a response that is valid JSON but violates
the documented verdict shape in every field (numeric is_match, unknown
confidence literal HIGH, missing reason) is nevertheless accepted, because
the code applies truthiness to is_match and lowercases confidence instead
of validating the shape. -/
theorem llm_shape_violating_verdict_accepted :
    (llm_review_ambiguous (some ()) (some "key") oracleNonconforming [cand1] 10).approved
        = [retag cand1]
      ∧ ¬ ("HIGH" = "low" ∨ "HIGH" = "medium" ∨ "HIGH" = "high")
      ∧ List.lookup "reason"
          [("is_match", PyVal.pyint 1), ("confidence", PyVal.pystr "HIGH")] = none := by
  refine ⟨?_, by decide, by decide⟩
  decide

/-- Claim C1 (code bug witness): with a single to_review candidate carrying
the method tag fuzzy_name_ambiguous and an oracle verdict that accepts it,
the function returns the re-tagged copy in the accepted list and still
returns the original, accepted candidate in the still-ambiguous list: the
list comprehension tests the originals for membership among the re-tagged
copies, which never match, so the two output lists overlap instead of
partitioning the input. -/
theorem llm_review_accepted_item_left_in_still_ambiguous :
    (llm_review_ambiguous (some ()) (some "key") oracleYesHigh [cand1] 10).approved
        = [retag cand1]
      ∧ (llm_review_ambiguous (some ()) (some "key") oracleYesHigh [cand1] 10).still_ambiguous
        = [cand1] := by
  constructor <;> decide

/-- Claim C3: for a reviewed item whose response parses to an object with a
boolean is_match and a string confidence drawn from the three documented
literals, the item is accepted exactly when is_match is true and confidence
is medium or high. -/
theorem llm_acceptance_rule (m : Candidate) (oracle : Candidate → OracleOutcome)
    (content : String) (kvs : List (String × PyVal)) (b : Bool) (c : String)
    (horacle : oracle m = OracleOutcome.reply content (LoadResult.objVal kvs))
    (him : kvs.lookup "is_match" = some (PyVal.pybool b))
    (hconf : kvs.lookup "confidence" = some (PyVal.pystr c))
    (hc : c = "low" ∨ c = "medium" ∨ c = "high") :
    (llm_review_ambiguous (some ()) (some "key") oracle [m] LLM_MAX_REVIEWS).approved
        = [retag m]
      ↔ (b = true ∧ (c = "medium" ∨ c = "high")) := by
  rw [llm_review_approved_eq]
  have htake : List.take LLM_MAX_REVIEWS [m] = [m] := rfl
  rw [htake, List.filter_cons, horacle, accepts_verdict content kvs b c him hconf]
  have e1 : ((pyLower "low" == "high") || (pyLower "low" == "medium")) = false := by decide
  have e2 : ((pyLower "medium" == "high") || (pyLower "medium" == "medium")) = true := by decide
  have e3 : ((pyLower "high" == "high") || (pyLower "high" == "medium")) = true := by decide
  rcases hc with rfl | rfl | rfl <;> cases b <;> simp [e1, e2, e3]

/-- Claim C3, witness: the literal low-confidence positive verdict of the
specification is not accepted. -/
theorem llm_acceptance_rule_witness :
    (llm_review_ambiguous (some ()) (some "key") oracleYesLow [cand1] LLM_MAX_REVIEWS).approved
        = [retag cand1]
      ↔ (true = true ∧ ("low" = "medium" ∨ "low" = "high")) :=
  llm_acceptance_rule cand1 oracleYesLow
    "\x7b\"is_match\": true, \"confidence\": \"low\", \"reason\": \"weak signal\"\x7d"
    [ ("is_match", PyVal.pybool true)
    , ("confidence", PyVal.pystr "low")
    , ("reason", PyVal.pystr "weak signal") ]
    true "low" rfl (by decide) (by decide) (Or.inl rfl)

/-- When no eligible row of the remaining list scores above the running
best, the inner loop keeps the running best unchanged. -/
theorem bestAbrAux_stable (sim : String → String → Nat) (cc_name : String) :
    ∀ (rs : List AbrRow) (b : Int) (br : Option AbrRow),
      (∀ x ∈ rs, pyStrip x.entity_name_norm ≠ "" →
        ((sim cc_name (pyStrip x.entity_name_norm) : Nat) : Int) ≤ b) →
      bestAbrAux sim cc_name b br rs = (b, br) := by
  intro rs
  induction rs with
  | nil => intro b br _h; rfl
  | cons x rest ih =>
    intro b br h
    have hrest : ∀ y ∈ rest, pyStrip y.entity_name_norm ≠ "" →
        ((sim cc_name (pyStrip y.entity_name_norm) : Nat) : Int) ≤ b :=
      fun y hy => h y (List.mem_cons_of_mem x hy)
    by_cases hx : pyStrip x.entity_name_norm = ""
    · simpa [bestAbrAux, hx] using ih b br hrest
    · have hle := h x (List.mem_cons_self x rest) hx
      have hnotlt : ¬ b < ((sim cc_name (pyStrip x.entity_name_norm) : Nat) : Int) :=
        not_lt.mpr hle
      simpa [bestAbrAux, hx, hnotlt] using ih b br hrest

/-- The inner loop selects the first eligible row that attains the maximum
eligible score, provided that score beats the running best: rows before it
score strictly lower, rows after it score no higher, and a later row with
an equal score never replaces it because only a strict improvement updates
the running best. -/
theorem bestAbrAux_first_best (sim : String → String → Nat) (cc_name : String) :
    ∀ (l1 : List AbrRow) (r : AbrRow) (l2 : List AbrRow) (b : Int) (br : Option AbrRow),
      pyStrip r.entity_name_norm ≠ "" →
      b < ((sim cc_name (pyStrip r.entity_name_norm) : Nat) : Int) →
      (∀ x ∈ l1, pyStrip x.entity_name_norm ≠ "" →
        sim cc_name (pyStrip x.entity_name_norm) < sim cc_name (pyStrip r.entity_name_norm)) →
      (∀ x ∈ l2, pyStrip x.entity_name_norm ≠ "" →
        sim cc_name (pyStrip x.entity_name_norm) ≤ sim cc_name (pyStrip r.entity_name_norm)) →
      bestAbrAux sim cc_name b br (l1 ++ r :: l2)
        = (((sim cc_name (pyStrip r.entity_name_norm) : Nat) : Int), some r) := by
  intro l1
  induction l1 with
  | nil =>
    intro r l2 b br hr hb _hl1 hl2
    have hstep : bestAbrAux sim cc_name b br (r :: l2)
        = bestAbrAux sim cc_name ((sim cc_name (pyStrip r.entity_name_norm) : Nat) : Int)
            (some r) l2 := by
      simp [bestAbrAux, hr, hb]
    rw [List.nil_append, hstep]
    exact bestAbrAux_stable sim cc_name l2 _ _
      (fun y hy hyne => by exact_mod_cast hl2 y hy hyne)
  | cons x l1 ih =>
    intro r l2 b br hr hb hl1 hl2
    have hl1' : ∀ z ∈ l1, pyStrip z.entity_name_norm ≠ "" →
        sim cc_name (pyStrip z.entity_name_norm) < sim cc_name (pyStrip r.entity_name_norm) :=
      fun z hz => hl1 z (List.mem_cons_of_mem x hz)
    by_cases hx : pyStrip x.entity_name_norm = ""
    · simpa [bestAbrAux, hx] using ih r l2 b br hr hb hl1' hl2
    · have hlt : sim cc_name (pyStrip x.entity_name_norm)
          < sim cc_name (pyStrip r.entity_name_norm) :=
        hl1 x (List.mem_cons_self x l1) hx
      by_cases hup : b < ((sim cc_name (pyStrip x.entity_name_norm) : Nat) : Int)
      · have hb' : ((sim cc_name (pyStrip x.entity_name_norm) : Nat) : Int)
            < ((sim cc_name (pyStrip r.entity_name_norm) : Nat) : Int) := by
          exact_mod_cast hlt
        simpa [bestAbrAux, hx, hup] using ih r l2 _ _ hr hb' hl1' hl2
      · simpa [bestAbrAux, hx, hup] using ih r l2 b br hr hb hl1' hl2

/-- The outer loop never places anything in the high-confidence bucket. -/
theorem fuzzyLoop_no_high (sim : String → String → Nat) (abrRows : List AbrRow) :
    ∀ ccRows : List CcRow, (fuzzyLoop sim abrRows ccRows).1 = [] := by
  intro ccRows
  induction ccRows with
  | nil => rfl
  | cons cc rest ih =>
    by_cases hcc : pyStrip cc.company_name_norm = ""
    · simpa [fuzzyLoop, hcc] using ih
    · cases hbest : bestAbrAux sim (pyStrip cc.company_name_norm) (-1) none abrRows with
      | mk bs obest =>
        cases obest with
        | none => simpa [fuzzyLoop, hcc, hbest] using ih
        | some best => simpa [fuzzyLoop, hcc, hbest] using ih

/-- Claim C7: for a mention with a non-empty stripped name, matched against
a registry list in which row r is eligible, scores at least as high as
every eligible row and strictly higher than every eligible row before it,
the matcher emits exactly the candidate pairing the mention with r at r's
score; in particular a later row that merely ties r never displaces it. -/
theorem fuzzy_match_selects_first_best (sim : String → String → Nat)
    (cc : CcRow) (l1 : List AbrRow) (r : AbrRow) (l2 : List AbrRow)
    (high_threshold low_threshold : Int)
    (hcc : pyStrip cc.company_name_norm ≠ "")
    (hr : pyStrip r.entity_name_norm ≠ "")
    (hl1 : ∀ x ∈ l1, pyStrip x.entity_name_norm ≠ "" →
      sim (pyStrip cc.company_name_norm) (pyStrip x.entity_name_norm)
        < sim (pyStrip cc.company_name_norm) (pyStrip r.entity_name_norm))
    (hl2 : ∀ x ∈ l2, pyStrip x.entity_name_norm ≠ "" →
      sim (pyStrip cc.company_name_norm) (pyStrip x.entity_name_norm)
        ≤ sim (pyStrip cc.company_name_norm) (pyStrip r.entity_name_norm)) :
    fuzzy_match_entities sim (l1 ++ r :: l2) [cc] high_threshold low_threshold
      = ([], [⟨cc, r,
          ((sim (pyStrip cc.company_name_norm) (pyStrip r.entity_name_norm) : Nat) : Int),
          "fuzzy_name_ambiguous"⟩], []) := by
  have hne : ¬ (l1 ++ r :: l2 = [] ∨ [cc] = []) := by simp
  have hb : (-1 : Int)
      < ((sim (pyStrip cc.company_name_norm) (pyStrip r.entity_name_norm) : Nat) : Int) := by
    have := Int.natCast_nonneg (sim (pyStrip cc.company_name_norm) (pyStrip r.entity_name_norm))
    omega
  have hbest := bestAbrAux_first_best sim (pyStrip cc.company_name_norm)
    l1 r l2 (-1) none hr hb hl1 hl2
  rw [fuzzy_match_entities, if_neg hne]
  simp [fuzzyLoop, hcc, hbest]

/-- Claim C7, witness: the constructed two-entity tie of the specification,
with a constant similarity giving both registry rows score 50 — the row
evaluated first is the one retained. -/
theorem fuzzy_match_tie_first_wins :
    fuzzy_match_entities (fun _ _ => 50) [abrSample, abrSampleB] [ccSample] 90 75
      = ([], [⟨ccSample, abrSample, 50, "fuzzy_name_ambiguous"⟩], []) :=
  fuzzy_match_selects_first_best (fun _ _ => 50) ccSample [] abrSample [abrSampleB] 90 75
    (by decide) (by decide)
    (by intro x hx; cases hx)
    (by intro x hx h; exact Nat.le_refl _)

/-- Claim C8: against a non-empty registry list, a mention whose stripped
normalised name is empty is routed to the unmatched bucket without any
comparison (the result does not depend on the similarity function), and any
mention compared against a registry list all of whose entries have empty
stripped names is likewise emitted as unmatched; no error path exists. -/
theorem fuzzy_match_empty_names_unmatched (sim : String → String → Nat)
    (abrRows : List AbrRow) (cc : CcRow) (high_threshold low_threshold : Int)
    (habr : abrRows ≠ []) :
    (pyStrip cc.company_name_norm = "" →
        fuzzy_match_entities sim abrRows [cc] high_threshold low_threshold = ([], [], [cc]))
      ∧ ((∀ x ∈ abrRows, pyStrip x.entity_name_norm = "") →
        fuzzy_match_entities sim abrRows [cc] high_threshold low_threshold = ([], [], [cc])) := by
  have hne : ¬ (abrRows = [] ∨ [cc] = []) := by simp [habr]
  constructor
  · intro hcc
    rw [fuzzy_match_entities, if_neg hne]
    simp [fuzzyLoop, hcc]
  · intro hall
    rw [fuzzy_match_entities, if_neg hne]
    by_cases hcc : pyStrip cc.company_name_norm = ""
    · simp [fuzzyLoop, hcc]
    · have hbest := bestAbrAux_stable sim (pyStrip cc.company_name_norm) abrRows (-1) none
        (fun x hx hxne => absurd (hall x hx) hxne)
      simp [fuzzyLoop, hcc, hbest]

/-- Claim C8, witness: an empty-named mention against a registry list whose
single row has a whitespace-only name is emitted unmatched. -/
theorem fuzzy_match_empty_names_unmatched_witness :
    fuzzy_match_entities (fun _ _ => 0) [abrNoName] [ccNoName] 90 75 = ([], [], [ccNoName]) :=
  (fuzzy_match_empty_names_unmatched (fun _ _ => 0) [abrNoName] ccNoName 90 75
    (by decide)).1 (by decide)

/-- Claim C2, counterexample: with thresholds high = 90 and low = 75 and a
similarity that scores the pair at 100 ≥ high, the pair is still placed in
the needs-adjudication bucket and the auto-accept bucket is empty. -/
theorem fuzzy_match_high_score_not_auto_accepted :
    (fuzzy_match_entities (fun _ _ => 100) [abrSample] [ccSample] 90 75).1 = []
      ∧ (fuzzy_match_entities (fun _ _ => 100) [abrSample] [ccSample] 90 75).2.1
          = [⟨ccSample, abrSample, 100, "fuzzy_name_ambiguous"⟩]
      ∧ ((100 : Int) ≥ 90 ∧ (90 : Int) ≥ 75) := by
  refine ⟨?_, ?_, by decide⟩ <;> decide

/-- Claim C2, amended: the classifier ignores its two threshold parameters
altogether — the auto-accept bucket is always empty and the whole output is
independent of the threshold values (blanket adjudication). -/
theorem fuzzy_match_thresholds_ignored (sim : String → String → Nat)
    (abrRows : List AbrRow) (ccRows : List CcRow) (ht lt ht2 lt2 : Int) :
    (fuzzy_match_entities sim abrRows ccRows ht lt).1 = []
      ∧ fuzzy_match_entities sim abrRows ccRows ht lt
          = fuzzy_match_entities sim abrRows ccRows ht2 lt2 := by
  constructor
  · rw [fuzzy_match_entities]
    by_cases h : abrRows = [] ∨ ccRows = []
    · rw [if_pos h]
    · rw [if_neg h]; exact fuzzyLoop_no_high sim abrRows ccRows
  · rfl

/-- Claim C9, counterexample: a run with an empty accepted list returns
before the TRUNCATE, so a store already holding a unified row keeps it —
the row counts after the run are not one unified row and two link rows per
accepted candidate (zero candidates would require empty tables). -/
theorem write_matches_empty_run_skips_truncate :
    write_matches_to_db [] dbDirty = dbDirty
      ∧ dbDirty.company_unified.length = 1
      ∧ dbDirty.company_source_link.length = 2 :=
  ⟨rfl, rfl, rfl⟩

/-- Claim C9, amended: for a non-empty accepted list every run truncates
both tables before inserting, so the resulting state is independent of the
prior state, holds exactly one unified row and two source-link rows per
accepted candidate, and writing the same list twice leaves the state of
writing it once; an empty list is a no-op that leaves the prior state (and
hence its row counts) untouched. -/
theorem write_matches_idempotent_nonempty (match_list : List Candidate)
    (db db2 : Db) (h : match_list ≠ []) :
    write_matches_to_db match_list db = write_matches_to_db match_list db2
      ∧ (write_matches_to_db match_list db).company_unified.length = match_list.length
      ∧ (write_matches_to_db match_list db).company_source_link.length
          = 2 * match_list.length
      ∧ write_matches_to_db match_list (write_matches_to_db match_list db)
          = write_matches_to_db match_list db := by
  have hlen : ∀ (company_id : Nat) (l : List Candidate),
      (linkRows company_id l).length = 2 * l.length := by
    intro company_id l
    induction l generalizing company_id with
    | nil => rfl
    | cons m rest ih => simp [linkRows, ih]; omega
  refine ⟨?_, ?_, ?_, ?_⟩ <;> simp [write_matches_to_db, h, hlen]

/-- Claim C9, amended-claim witness: writing one concrete accepted
candidate from the empty state and from a dirty state gives the same
result, with one unified row and two link rows, and rewriting is a no-op. -/
theorem write_matches_idempotent_nonempty_witness :
    write_matches_to_db [cand1] dbEmpty = write_matches_to_db [cand1] dbDirty
      ∧ (write_matches_to_db [cand1] dbEmpty).company_unified.length = [cand1].length
      ∧ (write_matches_to_db [cand1] dbEmpty).company_source_link.length
          = 2 * [cand1].length
      ∧ write_matches_to_db [cand1] (write_matches_to_db [cand1] dbEmpty)
          = write_matches_to_db [cand1] dbEmpty :=
  write_matches_idempotent_nonempty [cand1] dbEmpty dbDirty (by decide)

/-- Claim C10: parse_date_safe is a total function that returns a date only
when the input is an eight-character all-digit string parsed by the
YYYYMMDD format or a ten-character dash-containing string parsed by the
YYYY-MM-DD format, and in particular returns none on the empty string. -/
theorem parse_date_safe_shape (s : String) (d : PyDate)
    (h : parse_date_safe s = some d) :
    ((s.length = 8 ∧ s.data.all Char.isDigit = true ∧ strptime_Ymd s = some d)
      ∨ (s.length = 10 ∧ s.data.contains '-' = true ∧ strptime_Y_m_d s = some d))
      ∧ parse_date_safe "" = none := by
  refine ⟨?_, rfl⟩
  rw [parse_date_safe] at h
  by_cases h0 : s = ""
  · rw [if_pos h0] at h; exact absurd h (by simp)
  · rw [if_neg h0] at h
    by_cases h8 : s.length = 8 ∧ s.data.all Char.isDigit = true
    · rw [if_pos h8] at h
      exact Or.inl ⟨h8.1, h8.2, h⟩
    · rw [if_neg h8] at h
      by_cases h10 : s.length = 10 ∧ s.data.contains '-' = true
      · rw [if_pos h10] at h
        exact Or.inr ⟨h10.1, h10.2, h⟩
      · rw [if_neg h10] at h; exact absurd h (by simp)

/-- Claim C10, witness: a concrete eight-digit date string parses through
the YYYYMMDD branch. -/
theorem parse_date_safe_shape_witness :
    (((("20200101" : String).length = 8
        ∧ ("20200101" : String).data.all Char.isDigit = true
        ∧ strptime_Ymd "20200101" = some ⟨2020, 1, 1⟩)
      ∨ ((("20200101" : String).length = 10
        ∧ ("20200101" : String).data.contains '-' = true
        ∧ strptime_Y_m_d "20200101" = some ⟨2020, 1, 1⟩)))
      ∧ parse_date_safe "" = none) :=
  parse_date_safe_shape "20200101" ⟨2020, 1, 1⟩ (by decide)

end Firmable
